import Mathlib

/-!
Verification of the `wasm-metamask` EIP-1193 provider adapter
(`examples/wasm-metamask/src/provider.rs`).

The adapter bridges a browser-injected wallet provider (a host global
object exposing `request`, `on`, `removeListener`) to ethers' generic
`JsonRpcClient` contract.  We shallowly embed:

  * the host's dynamic value form (`JsVal`, modelling `wasm_bindgen::JsValue`
    restricted to the JSON-like values exchanged here);
  * the error enum `EIP1193Error` and its conversions
    (`From<JsValue>`, `From<EIP1193Error> for ProviderError`, `RpcError`);
  * construction `EIP1193::new` over a model of `web_sys::Window`
    and `js_sys::Reflect::get`;
  * the `request` method, parameterised by the behaviour of the captured
    host callable and by the serde codecs for the generic parameter and
    result types, returning an event trace (log lines, host invocations)
    alongside the result.
-/

/-- The host's dynamic value representation: the JSON-like fragment of
`wasm_bindgen::JsValue` that this adapter exchanges with the wallet.
Objects are association lists of string keys to values. -/
inductive JsVal : Type where
  | undefined : JsVal
  | null : JsVal
  | bool (b : Bool) : JsVal
  | num (n : Int) : JsVal
  | str (s : String) : JsVal
  | arr (xs : List JsVal) : JsVal
  | obj (fields : List (String × JsVal)) : JsVal

/-- Whether a host object value carries the given key (for `.obj`,
membership in its field list; all other values carry no keys). -/
def jsHasKey : JsVal → String → Bool
  | .obj fields, k => (List.lookup k fields).isSome
  | _, _ => false

/-- Model of Rust's `format!("\x7b:?\x7d", js)` debug rendering of a
`JsValue` (objects and arrays render opaquely, as wasm-bindgen does). -/
def debugRender : JsVal → String
  | .undefined => "JsValue(undefined)"
  | .null => "JsValue(null)"
  | .bool b => s!"JsValue({b})"
  | .num n => s!"JsValue({n})"
  | .str s => "JsValue(" ++ s ++ ")"
  | .arr _ => "JsValue(Object)"
  | .obj _ => "JsValue(Object)"

/-- `ethers::providers::JsonRpcError`: the structured JSON-RPC error
payload `\x7bcode, message, data\x7d`. -/
structure JsonRpcError : Type where
  code : Int
  message : String
  data : Option JsVal

/-- The adapter's error enum `EIP1193Error`.  `serde_json::Error` values
are modelled by their message string (every one produced here comes from
`serde_json::Error::custom`). -/
inductive EIP1193Error : Type where
  | RPC (e : JsonRpcError) : EIP1193Error
  | Deserialize (msg : String) : EIP1193Error
  | JsValueError (s : String) : EIP1193Error

/-- `impl From<JsValue> for EIP1193Error`: wraps the debug rendering of
the host value into the `JsValueError` variant. -/
def jsValueToError (js : JsVal) : EIP1193Error :=
  .JsValueError (debugRender js)

/-- The variants of `ethers::providers::ProviderError` that the
conversion from `EIP1193Error` can produce (the real enum has further
variants, none of them reachable from this adapter). -/
inductive EthersProviderError : Type where
  | UnsupportedRPC : EthersProviderError
  | SerdeJson (msg : String) : EthersProviderError
  | CustomError (s : String) : EthersProviderError

/-- `impl From<EIP1193Error> for ProviderError`. -/
def EIP1193Error.toProviderError : EIP1193Error → EthersProviderError
  | .RPC _ => .UnsupportedRPC
  | .Deserialize err => .SerdeJson err
  | .JsValueError someString => .CustomError someString

/-- `RpcError::as_error_response` for `EIP1193Error`. -/
def EIP1193Error.asErrorResponse : EIP1193Error → Option JsonRpcError
  | .RPC err => some err
  | _ => none

/-- `RpcError::as_serde_error` for `EIP1193Error`. -/
def EIP1193Error.asSerdeError : EIP1193Error → Option String
  | .Deserialize err => some err
  | _ => none

/-- Model of the browser `Window`'s global bindings. -/
structure Window : Type where
  globals : List (String × JsVal)

/-- `web_sys::Window::get(name)`: looks the name up among the globals and
returns `None` when the binding is absent or `undefined`. -/
def Window.get (w : Window) (name : String) : Option JsVal :=
  match List.lookup name w.globals with
  | some .undefined => none
  | some v => some v
  | none => none

/-- `js_sys::Reflect::get(target, key)`: on an object it returns the
member, or `undefined` when the key is absent, without error; on a
non-object target it throws a `TypeError`, which the adapter's `?`
operator converts through `From<JsValue>`. -/
def reflectGet (target : JsVal) (key : String) : Except EIP1193Error JsVal :=
  match target with
  | .obj fields => .ok ((List.lookup key fields).getD .undefined)
  | _ => .error (jsValueToError (.str "TypeError"))

/-- The captured provider handle `EIP1193`: the provider object itself
and the three members obtained by `Reflect::get` (each an unchecked cast
to `Function`, so possibly `undefined`). -/
structure EIP1193 : Type where
  thisVal : JsVal
  request : JsVal
  onVal : JsVal
  removeListener : JsVal

/-- `EIP1193::new`: finds the `"ethereum"` global (failing with
`JsValueError("missing provider")` when absent) and captures the
`request`, `on` and `removeListener` members via `Reflect::get`. -/
def EIP1193.new (win : Window) : Except EIP1193Error EIP1193 :=
  match win.get "ethereum" with
  | none => .error (.JsValueError "missing provider")
  | some provider => do
    let request ← reflectGet provider "request"
    let onMember ← reflectGet provider "on"
    let removeListenerMember ← reflectGet provider "removeListener"
    .ok { thisVal := provider, request := request, onVal := onMember,
          removeListener := removeListenerMember }

/-- The request envelope `RequestMethod \x7bmethod, params\x7d`
(generic over the serializable params type). -/
structure RequestMethod (α : Type) : Type where
  method : String
  params : Option α

/-- serde serialization of `RequestMethod` to the host value form via
`serde_wasm_bindgen::to_value`: a struct becomes a JS object with one
property per field; the `Option` field has no skip attribute, so `None`
is serialized (as `undefined`) under the `"params"` key rather than the
key being omitted.  `encT` is the serializer of the inner params type;
its failure fails the whole serialization. -/
def encodeEnvelope (encT : α → Except String JsVal) (method : String) :
    Option α → Except String JsVal
  | none => .ok (.obj [("method", .str method), ("params", .undefined)])
  | some p =>
    (encT p).map fun v => .obj [("method", .str method), ("params", v)]

/-- Modelled from the spec: the source derives only `Serialize` for
`RequestMethod`, so the deserialization half of the spec's round-trip
property is not in the code.  This models serde's derived deserializer
for such a struct: `method` must be a string; a `params` key that is
absent, `null` or `undefined` yields `none`; otherwise the inner
deserializer `decT` runs on the value. -/
def decodeEnvelope (decT : JsVal → Except String α) (v : JsVal) :
    Except String (RequestMethod α) :=
  match v with
  | .obj fields =>
    match List.lookup "method" fields with
    | some (.str m) =>
      match List.lookup "params" fields with
      | none => .ok ⟨m, none⟩
      | some .undefined => .ok ⟨m, none⟩
      | some .null => .ok ⟨m, none⟩
      | some pv => (decT pv).map fun p => ⟨m, some p⟩
    | _ => .error "invalid envelope"
  | _ => .error "invalid type"

/-- The settled state of the promise returned by the host's `request`. -/
inductive PromiseOutcome : Type where
  | resolve (v : JsVal) : PromiseOutcome
  | reject (v : JsVal) : PromiseOutcome

/-- The behaviour of invoking the captured `request` callable on one
argument: either the call itself throws (`Function::call1` returns
`Err`), or it returns a promise with a settled outcome. -/
inductive HostOutcome : Type where
  | throw (e : JsVal) : HostOutcome
  | promise (p : PromiseOutcome) : HostOutcome

/-- Observable events of one `request` call: console log lines and
invocations of the captured host callable. -/
inductive Event : Type where
  | logged (line : String) : Event
  | hostCalled (arg : JsVal) : Event

/-- Whether an event is a log line. -/
def Event.isLogged : Event → Bool
  | .logged _ => true
  | _ => false

/-- The diagnostic line `request method \x7b:?\x7d, params: \x7b:?\x7d`
logged by `request` (the params rendering is supplied by the caller's
`Debug` model). -/
def logLine (method dbgParams : String) : String :=
  "request method \"" ++ method ++ "\", params: " ++ dbgParams

/-- `parse_js`: deserializes a resolved host value, mapping failure to
`Deserialize(serde_json::Error::custom("failed to parse js value: ..."))`. -/
def parseJs (dec : JsVal → Except String β) (data : JsVal) :
    Except EIP1193Error β :=
  match dec data with
  | .error e => .error (.Deserialize ("failed to parse js value: " ++ e))
  | .ok r => .ok r

/-- The result of `EIP1193::request` (the pure value part, without the
event trace): log, build the envelope with `params := Some(params)`,
serialize it (`to_value`, failure mapped by `to_deserialize_error` to the
`Deserialize` variant), call the host, await the promise (`?` converts a
thrown value or a rejection through `From<JsValue>`), and `parse_js` the
resolved value. -/
def requestResult (host : JsVal → HostOutcome) (encT : α → Except String JsVal)
    (dec : JsVal → Except String β) (method : String) (params : α) :
    Except EIP1193Error β :=
  match encodeEnvelope encT method (some params) with
  | .error e => .error (.Deserialize e)
  | .ok arg =>
    match host arg with
    | .throw js => .error (jsValueToError js)
    | .promise (.reject js) => .error (jsValueToError js)
    | .promise (.resolve v) => parseJs dec v

/-- `EIP1193::request` with its observable event trace: the diagnostic
log line is emitted first, then the envelope is serialized, and only if
serialization succeeds is the host callable invoked. -/
def requestModel (host : JsVal → HostOutcome) (encT : α → Except String JsVal)
    (dec : JsVal → Except String β) (dbg : α → String) (method : String)
    (params : α) : List Event × Except EIP1193Error β :=
  let line := logLine method (dbg params)
  match encodeEnvelope encT method (some params) with
  | .error e => ([.logged line], .error (.Deserialize e))
  | .ok arg =>
    match host arg with
    | .throw js => ([.logged line, .hostCalled arg], .error (jsValueToError js))
    | .promise (.reject js) =>
      ([.logged line, .hostCalled arg], .error (jsValueToError js))
    | .promise (.resolve v) =>
      ([.logged line, .hostCalled arg], parseJs dec v)

/-- serde serialization of Rust's `()` (serde_wasm_bindgen renders the
unit type as `undefined`). -/
def encUnit : Unit → Except String JsVal := fun _ => .ok .undefined

/-- Debug rendering of Rust's `()`. -/
def dbgUnit : Unit → String := fun _ => "()"

/-- Deserializer for a list of strings (`Vec<String>` elements). -/
def decStrings : List JsVal → Except String (List String)
  | [] => .ok []
  | .str s :: rest => (decStrings rest).map fun tail => s :: tail
  | _ :: _ => .error "invalid type: expected a string"

/-- Deserializer for `Vec<String>` (e.g. a list of account addresses):
expects a JS array of strings. -/
def decStrList : JsVal → Except String (List String)
  | .arr xs => decStrings xs
  | _ => .error "invalid type: expected a sequence"

/-- Identity deserializer (result type `JsVal` itself). -/
def decId : JsVal → Except String JsVal := fun v => .ok v

/-- The structured RPC error object `\x7bcode: -32601,
message: "Method not found"\x7d` used in the spec's concrete scenario. -/
def rpcErrObj : JsVal :=
  .obj [("code", .num (-32601)), ("message", .str "Method not found")]

/-- A host whose `request` rejects with `rpcErrObj`. -/
def hostRejectRpc : JsVal → HostOutcome :=
  fun _ => .promise (.reject rpcErrObj)

/-- A host whose `request` resolves with `["0xabc", "0xdef"]`. -/
def hostResolveAccounts : JsVal → HostOutcome :=
  fun _ => .promise (.resolve (.arr [.str "0xabc", .str "0xdef"]))

/-- A host whose `request` resolves with the single number `7`. -/
def hostResolveNum : JsVal → HostOutcome :=
  fun _ => .promise (.resolve (.num 7))

/-- A params serializer that always fails (e.g. a type
serde_wasm_bindgen cannot represent). -/
def encFail : Unit → Except String JsVal := fun _ => .error "unsupported type"

/-- A window with no `ethereum` global. -/
def emptyWindow : Window := ⟨[]⟩

/-- A window whose `ethereum` global is an object with none of the three
expected members. -/
def windowBareEthereum : Window := ⟨[("ethereum", .obj [])]⟩

/-- Deserializer for Rust's `()` (accepts `undefined` or `null`). -/
def decUnit : JsVal → Except String Unit
  | .undefined => .ok ()
  | .null => .ok ()
  | _ => .error "invalid type: expected unit"

/-- The host value `encodeEnvelope` produces for a unit-params request:
the envelope object with the `"params"` key present and `undefined`. -/
def envObj (method : String) : JsVal :=
  .obj [("method", .str method), ("params", .undefined)]

/-! ## Theorems -/

/-- C5: when the `"ethereum"` global is absent, `EIP1193::new` fails with
`JsValueError("missing provider")` and no handle is produced. -/
theorem c5_new_missing_provider (w : Window) (h : w.get "ethereum" = none) :
    EIP1193.new w = .error (.JsValueError "missing provider") := by
  unfold EIP1193.new
  rw [h]

/-- C5 witness: a window with no globals at all. -/
theorem c5_new_missing_provider_witness :
    emptyWindow.get "ethereum" = none ∧
      EIP1193.new emptyWindow = .error (.JsValueError "missing provider") :=
  ⟨rfl, c5_new_missing_provider emptyWindow rfl⟩

/-- C3 counterexample: with an `ethereum` global object that has none of
the members `request`, `on`, `removeListener`, `EIP1193::new` succeeds
(capturing `undefined` for all three), contradicting the claim that it
fails; `Reflect::get` on an object never errors for a missing key. -/
theorem c3_counterexample :
    EIP1193.new windowBareEthereum =
      .ok ⟨.obj [], .undefined, .undefined, .undefined⟩ := rfl

/-- C3 amended: `EIP1193::new` succeeds whenever the `"ethereum"` global
is present as an object, whatever members it has; missing members are
captured as `undefined` without any callable check. -/
theorem c3_new_succeeds_on_object (w : Window) (fields : List (String × JsVal))
    (h : w.get "ethereum" = some (.obj fields)) :
    EIP1193.new w = .ok
      ⟨.obj fields, (List.lookup "request" fields).getD .undefined,
        (List.lookup "on" fields).getD .undefined,
        (List.lookup "removeListener" fields).getD .undefined⟩ := by
  unfold EIP1193.new
  rw [h]
  rfl

/-- C3 amended witness: the bare `ethereum` object. -/
theorem c3_new_succeeds_on_object_witness :
    windowBareEthereum.get "ethereum" = some (.obj []) ∧
      EIP1193.new windowBareEthereum = .ok
        ⟨.obj [], (List.lookup "request" ([] : List (String × JsVal))).getD .undefined,
          (List.lookup "on" ([] : List (String × JsVal))).getD .undefined,
          (List.lookup "removeListener" ([] : List (String × JsVal))).getD .undefined⟩ :=
  ⟨rfl, c3_new_succeeds_on_object windowBareEthereum [] rfl⟩

/-- C1 counterexample: against a host whose `request` rejects with the
structured RPC error object `\x7bcode: -32601, message: "Method not
found"\x7d`, the call returns `JsValueError` (the debug rendering of the
rejection value, via `From<JsValue>`), not the `RPC` variant: no code
path in `request` ever constructs `EIP1193Error::RPC`. -/
theorem c1_counterexample :
    (requestModel hostRejectRpc encUnit decId dbgUnit "eth_chainId" ()).2 =
        .error (.JsValueError "JsValue(Object)") ∧
      (requestModel hostRejectRpc encUnit decId dbgUnit "eth_chainId" ()).2 ≠
        .error (.RPC ⟨-32601, "Method not found", none⟩) := by
  refine ⟨rfl, fun h => ?_⟩
  exact EIP1193Error.noConfusion (Except.error.inj h)

/-- C1 amended: every rejection of the host promise — including one
carrying a structured `\x7bcode, message\x7d` RPC error object — is
surfaced as `JsValueError` holding the debug rendering of the rejection
value, never as the `RPC` variant. -/
theorem c1_reject_maps_to_jsvalue_error {α β : Type}
    (host : JsVal → HostOutcome) (encT : α → Except String JsVal)
    (dec : JsVal → Except String β) (dbg : α → String) (method : String)
    (params : α) (arg js : JsVal)
    (henc : encodeEnvelope encT method (some params) = .ok arg)
    (hhost : host arg = .promise (.reject js)) :
    (requestModel host encT dec dbg method params).2 =
      .error (.JsValueError (debugRender js)) := by
  simp [requestModel, henc, hhost, jsValueToError]

/-- C1 amended witness: the `eth_chainId` scenario from the spec. -/
theorem c1_reject_maps_to_jsvalue_error_witness :
    (requestModel hostRejectRpc encUnit decId dbgUnit "eth_chainId" ()).2 =
      .error (.JsValueError (debugRender rpcErrObj)) :=
  c1_reject_maps_to_jsvalue_error hostRejectRpc encUnit decId dbgUnit
    "eth_chainId" () (envObj "eth_chainId") rpcErrObj rfl rfl

/-- C2 counterexample: serializing `\x7bmethod: "eth_accounts", params:
none\x7d` yields a host object in which the `"params"` key IS present
(bound to `undefined`): the derive has no skip attribute, so the key is
not omitted, contradicting the claim that the key is absent. -/
theorem c2_counterexample :
    encodeEnvelope encUnit "eth_accounts" none = .ok (envObj "eth_accounts") ∧
      jsHasKey (envObj "eth_accounts") "params" = true := ⟨rfl, rfl⟩

/-- C2 amended: the round trip preserves the envelope — serializing
`\x7bmethod: "eth_accounts", params: none\x7d` and deserializing the
result yields `params = none` — but the serialized host value carries the
`"params"` key present with an `undefined` value, not absent. -/
theorem c2_roundtrip_params_present_undefined :
    encodeEnvelope encUnit "eth_accounts" none = .ok (envObj "eth_accounts") ∧
      jsHasKey (envObj "eth_accounts") "params" = true ∧
      decodeEnvelope decUnit (envObj "eth_accounts") =
        .ok ⟨"eth_accounts", (none : Option Unit)⟩ := ⟨rfl, rfl, rfl⟩

/-- C4: whenever envelope serialization succeeds and the host resolves
with a value the result deserializer accepts, `request` returns `Ok`
with exactly that deserialized value. -/
theorem c4_resolve_returns_deserialized {α β : Type}
    (host : JsVal → HostOutcome) (encT : α → Except String JsVal)
    (dec : JsVal → Except String β) (dbg : α → String) (method : String)
    (params : α) (arg v : JsVal) (r : β)
    (henc : encodeEnvelope encT method (some params) = .ok arg)
    (hhost : host arg = .promise (.resolve v)) (hdec : dec v = .ok r) :
    (requestModel host encT dec dbg method params).2 = .ok r := by
  simp [requestModel, henc, hhost, parseJs, hdec]

/-- C4 witness: the `eth_requestAccounts` scenario from the spec, the
host resolving with `["0xabc", "0xdef"]`. -/
theorem c4_resolve_returns_deserialized_witness :
    (requestModel hostResolveAccounts encUnit decStrList dbgUnit
        "eth_requestAccounts" ()).2 = .ok ["0xabc", "0xdef"] :=
  c4_resolve_returns_deserialized hostResolveAccounts encUnit decStrList
    dbgUnit "eth_requestAccounts" () (envObj "eth_requestAccounts")
    (.arr [.str "0xabc", .str "0xdef"]) ["0xabc", "0xdef"] rfl rfl rfl

/-- C6: whenever the host resolves with a value the result deserializer
rejects, `request` fails with the `Deserialize` variant carrying the
human-readable cause, and never returns `Ok` with any value. -/
theorem c6_deserialize_failure {α β : Type}
    (host : JsVal → HostOutcome) (encT : α → Except String JsVal)
    (dec : JsVal → Except String β) (dbg : α → String) (method : String)
    (params : α) (arg v : JsVal) (e : String)
    (henc : encodeEnvelope encT method (some params) = .ok arg)
    (hhost : host arg = .promise (.resolve v)) (hdec : dec v = .error e) :
    (requestModel host encT dec dbg method params).2 =
        .error (.Deserialize ("failed to parse js value: " ++ e)) ∧
      ∀ r : β, (requestModel host encT dec dbg method params).2 ≠ .ok r := by
  have h1 : (requestModel host encT dec dbg method params).2 =
      .error (.Deserialize ("failed to parse js value: " ++ e)) := by
    simp [requestModel, henc, hhost, parseJs, hdec]
  refine ⟨h1, fun r hr => ?_⟩
  rw [h1] at hr
  exact Except.noConfusion hr

/-- C6 witness: expecting a list of account addresses but the host
resolves with the single number `7`. -/
theorem c6_deserialize_failure_witness :
    (requestModel hostResolveNum encUnit decStrList dbgUnit
        "eth_accounts" ()).2 =
        .error (.Deserialize ("failed to parse js value: " ++
          "invalid type: expected a sequence")) ∧
      ∀ r : List String,
        (requestModel hostResolveNum encUnit decStrList dbgUnit
          "eth_accounts" ()).2 ≠ .ok r :=
  c6_deserialize_failure hostResolveNum encUnit decStrList dbgUnit
    "eth_accounts" () (envObj "eth_accounts") (.num 7)
    "invalid type: expected a sequence" rfl rfl rfl

/-- C7: the conversion into ethers' `ProviderError` maps `RPC` to
`UnsupportedRPC`, `Deserialize` to `SerdeJson` carrying the original
cause, and `JsValueError` to `CustomError` carrying the rendered message;
the three equations cover every constructor, so the mapping is total and
exact. -/
theorem c7_provider_error_mapping :
    (∀ e : JsonRpcError,
        (EIP1193Error.RPC e).toProviderError = .UnsupportedRPC) ∧
      (∀ m : String,
        (EIP1193Error.Deserialize m).toProviderError = .SerdeJson m) ∧
      (∀ s : String,
        (EIP1193Error.JsValueError s).toProviderError = .CustomError s) ∧
      (∀ err : EIP1193Error,
        err.toProviderError = .UnsupportedRPC ↔ ∃ e, err = .RPC e) := by
  refine ⟨fun e => rfl, fun m => rfl, fun s => rfl, fun err => ?_⟩
  cases err <;> simp [EIP1193Error.toProviderError]

/-- C8: every `request` call emits exactly one diagnostic log line, it
records the method name and the params rendering, it is the first event
of the trace (so it precedes any invocation of the host callable), and
the returned result coincides with the log-free `requestResult`. -/
theorem c8_logs_once_before_call {α β : Type}
    (host : JsVal → HostOutcome) (encT : α → Except String JsVal)
    (dec : JsVal → Except String β) (dbg : α → String) (method : String)
    (params : α) :
    ((requestModel host encT dec dbg method params).1.head? =
        some (.logged (logLine method (dbg params)))) ∧
      ((requestModel host encT dec dbg method params).1.filter
        Event.isLogged).length = 1 ∧
      (requestModel host encT dec dbg method params).2 =
        requestResult host encT dec method params := by
  unfold requestModel requestResult
  cases henc : encodeEnvelope encT method (some params) with
  | error e => simp [Event.isLogged]
  | ok arg =>
    cases hhost : host arg with
    | throw js => simp [hhost, Event.isLogged]
    | promise p => cases p <;> simp [hhost, Event.isLogged]

/-- C9: when serializing the outgoing envelope fails, `request` returns
the `Deserialize` variant (via `to_deserialize_error`, not the opaque
`JsValueError`) and the host callable is never invoked. -/
theorem c9_encode_failure_no_host_call {α β : Type}
    (host : JsVal → HostOutcome) (encT : α → Except String JsVal)
    (dec : JsVal → Except String β) (dbg : α → String) (method : String)
    (params : α) (e : String)
    (henc : encodeEnvelope encT method (some params) = .error e) :
    (requestModel host encT dec dbg method params).2 =
        .error (.Deserialize e) ∧
      ∀ arg : JsVal,
        Event.hostCalled arg ∉ (requestModel host encT dec dbg method params).1 := by
  constructor
  · simp [requestModel, henc]
  · intro arg
    simp [requestModel, henc]

/-- C9 witness: a params type whose serialization fails with
`"unsupported type"`. -/
theorem c9_encode_failure_no_host_call_witness :
    (requestModel hostResolveNum encFail decId dbgUnit "eth_chainId" ()).2 =
        .error (.Deserialize "unsupported type") ∧
      ∀ arg : JsVal,
        Event.hostCalled arg ∉
          (requestModel hostResolveNum encFail decId dbgUnit "eth_chainId" ()).1 :=
  c9_encode_failure_no_host_call hostResolveNum encFail decId dbgUnit
    "eth_chainId" () "unsupported type" rfl

/-- C10: `as_error_response` returns `Some` exactly on the `RPC` variant
(with the embedded payload), `as_serde_error` returns `Some` exactly on
the `Deserialize` variant (with the embedded error), and the two
accessors are never both `Some` on the same value. -/
theorem c10_rpc_error_accessors :
    (∀ e : JsonRpcError, (EIP1193Error.RPC e).asErrorResponse = some e) ∧
      (∀ m : String, (EIP1193Error.Deserialize m).asSerdeError = some m) ∧
      (∀ err : EIP1193Error,
        err.asErrorResponse.isSome ↔ ∃ e, err = .RPC e) ∧
      (∀ err : EIP1193Error,
        err.asSerdeError.isSome ↔ ∃ m, err = .Deserialize m) ∧
      (∀ err : EIP1193Error,
        ¬(err.asErrorResponse.isSome ∧ err.asSerdeError.isSome)) := by
  refine ⟨fun e => rfl, fun m => rfl, fun err => ?_, fun err => ?_, fun err => ?_⟩ <;>
    cases err <;>
      simp [EIP1193Error.asErrorResponse, EIP1193Error.asSerdeError]
